import Mathlib

/-!
Verification development for the happiness-dashboard repository
(src/app.py). The logical core — the Dataset Loader (lines 11-30) and
the View Reducer, i.e. the derived-view computation of the script body
(lines 69-189) — is embedded shallowly below: pandas DataFrames become
lists of records, float NaN becomes a distinguished constructor of
`PFloat`, and Python exceptions become `Except` errors. The script is
linear, so the Reducer is modelled both as component functions
(`get_delta`, `happiest`, `corrMatrix`, ...) and as `runScript`, which
replays the statement order of lines 69-189 and records which outputs
were emitted before any exception.
-/

set_option autoImplicit false

deriving instance DecidableEq for Except

namespace Happiness

/-- One row of the primary source `happiness_clean.csv` (before the
Region join of `load_data`): the columns the script touches. -/
structure RawRecord where
  Country : String
  Year : Int
  Score : ℚ
  GDP_per_Capita : ℚ
  Social_Support : ℚ
  Life_Expectancy : ℚ
  Freedom : ℚ
  Generosity : ℚ
  Corruption : ℚ
deriving Repr, DecidableEq

/-- One row of the loaded Dataset: a `RawRecord` plus the derived
`Region` column assigned by `load_data` (app.py lines 20-23). `Region`
is a total `String` field, so it is never null after load by type. -/
structure Record extends RawRecord where
  Region : String
deriving Repr, DecidableEq

/-- Python float values the script can produce: a rational number or
the IEEE NaN that pandas uses as its missing-data marker. -/
inductive PFloat where
  | nan : PFloat
  | num : ℚ → PFloat
deriving Repr, DecidableEq

/-- Subtraction on Python floats: NaN propagates, as in IEEE. -/
def PFloat.sub : PFloat → PFloat → PFloat
  | PFloat.num a, PFloat.num b => PFloat.num (a - b)
  | _, _ => PFloat.nan

/-- pandas `Series.mean()`: sum divided by count, NaN for an empty
series (app.py lines 76, 87, 93). -/
def seriesMean (xs : List ℚ) : PFloat :=
  if xs = [] then PFloat.nan else PFloat.num (xs.sum / (xs.length : ℚ))

/-- Outcome of reading one backing file: parsed content, file missing
(Python `FileNotFoundError`), or present but unparseable (any other
`pd.read_csv` failure, e.g. `ParserError`). -/
inductive FileRead (α : Type) where
  | ok : α → FileRead α
  | missing : FileRead α
  | unparseable : FileRead α
deriving Repr, DecidableEq

/-- The secondary source `2015.csv` as `load_data` consumes it: whether
a `Region` column is present (app.py line 16), and the (Country, Region)
pairs in file order. -/
structure Secondary where
  hasRegion : Bool
  rows : List (String × String)
deriving Repr, DecidableEq

/-- The `Country → Region` mapping of app.py lines 16-19: built from the
(Country, Region) pairs when the `Region` column exists, empty
otherwise. -/
def regionMap (s : Secondary) : List (String × String) :=
  if s.hasRegion then s.rows else []

/-- Python `dict(zip(keys, vals))` lookup: later pairs overwrite earlier
ones, so look the key up in the reversed association list. -/
def dictLookup (m : List (String × String)) (k : String) : Option String :=
  m.reverse.lookup k

/-- app.py lines 12-24 (`load_data`): join Region onto the primary rows.
Secondary missing → every Region is the sentinel "Unknown" (line 23);
secondary readable → map each Country through the region mapping and
fill the misses with the sentinel "Other" (lines 20-21); secondary
present but unparseable → the exception is not caught (line 22 catches
only `FileNotFoundError`) and escapes as an error. -/
def load_data (primary : List RawRecord) (sec : FileRead Secondary) :
    Except String (List Record) :=
  match sec with
  | FileRead.missing =>
      Except.ok (primary.map (fun r => { toRawRecord := r, Region := "Unknown" }))
  | FileRead.unparseable => Except.error "ParserError"
  | FileRead.ok s =>
      Except.ok (primary.map (fun r =>
        { toRawRecord := r,
          Region := (dictLookup (regionMap s) r.Country).getD "Other" }))

/-- Result of the whole application start: a dashboard over a loaded
Dataset, or the fatal stop of app.py lines 26-30 (`st.error` followed by
`st.stop`) when `load_data` raised anything. -/
inductive AppResult where
  | dashboard : List Record → AppResult
  | fatalStop : AppResult
deriving Repr, DecidableEq

/-- app.py lines 26-30: any exception out of `load_data` — a primary
source failure or an unparseable secondary source — hits the bare
`except` and halts the app. -/
def loadApp (primary : FileRead (List RawRecord)) (sec : FileRead Secondary) :
    AppResult :=
  match primary with
  | FileRead.ok rows =>
      match load_data rows sec with
      | Except.ok ds => AppResult.dashboard ds
      | Except.error _ => AppResult.fatalStop
  | _ => AppResult.fatalStop

/-- Modelled from the spec: the caching decorator on `load_data`
(`@st.cache_data`, app.py line 11) is third-party library code, not in
this repository. Its contract per the spec is memoization: a repeated
call returns the stored in-memory table without re-reading the backing
sources. `load_cached` threads the cache explicitly and counts the
backing-source reads the call performs. -/
def load_cached (primary : FileRead (List RawRecord)) (sec : FileRead Secondary)
    (cache : Option (List Record)) :
    Except String (List Record) × Option (List Record) × Nat :=
  match cache with
  | some ds => (Except.ok ds, some ds, 0)
  | none =>
      match primary with
      | FileRead.ok rows =>
          match load_data rows sec with
          | Except.ok ds => (Except.ok ds, some ds, 2)
          | Except.error e => (Except.error e, none, 2)
      | _ => (Except.error "DataUnavailable", none, 1)

/-- app.py line 69: `df_year = df[df['Year'] == selected_year]`. -/
def yearSubset (ds : List Record) (y : Int) : List Record :=
  ds.filter (fun r => r.Year = y)

/-- app.py line 70: `df_prev = df[df['Year'] == (selected_year - 1)]`. -/
def prevSubset (ds : List Record) (y : Int) : List Record :=
  yearSubset ds (y - 1)

/-- Column access `df[c]` for the numeric columns the Reducer may
aggregate; `none` models the Python exception pandas raises when the
name is not such a column (a `KeyError` for an unknown name). -/
def getColFn : String → Option (Record → ℚ)
  | "Score" => some (fun r => r.Score)
  | "GDP_per_Capita" => some (fun r => r.GDP_per_Capita)
  | "Social_Support" => some (fun r => r.Social_Support)
  | "Life_Expectancy" => some (fun r => r.Life_Expectancy)
  | "Freedom" => some (fun r => r.Freedom)
  | "Generosity" => some (fun r => r.Generosity)
  | "Corruption" => some (fun r => r.Corruption)
  | _ => none

/-- app.py lines 73-76 (`get_delta`): `None` (outer `none`) when the
previous-year subset is empty — checked before the column is touched —
otherwise `mean(df_year[column]) - mean(df_prev[column])`, which raises
`KeyError` (the `Except.error`) for a column outside the frame. -/
def get_delta (ds : List Record) (y : Int) (column : String) :
    Except String (Option PFloat) :=
  if prevSubset ds y = [] then Except.ok none
  else
    match getColFn column with
    | none => Except.error "KeyError"
    | some f =>
        Except.ok (some (PFloat.sub
          (seriesMean ((yearSubset ds y).map f))
          (seriesMean ((prevSubset ds y).map f))))

/-- pandas `Series.idxmax` followed by `.loc`: the first row attaining
the maximal `Score`, `none` when the list is empty. Recursion keeps the
earlier row on ties (`if later.Score > r.Score` fails on equality). -/
def firstArgmax : List Record → Option Record
  | [] => none
  | r :: rs =>
      match firstArgmax rs with
      | none => some r
      | some b => if b.Score > r.Score then some b else some r

/-- app.py lines 97-98: `df_year.loc[df_year['Score'].idxmax()]['Country']`.
`idxmax` on an empty series raises `ValueError`, modelled as the error
branch; otherwise the Country of the first maximal-Score row. -/
def happiest (ds : List Record) (y : Int) : Except String String :=
  match firstArgmax (yearSubset ds y) with
  | none => Except.error "ValueError"
  | some r => Except.ok r.Country

/-- app.py line 108: `df_year['Is_Selected'] = df_year['Country'].isin(selected_countries)`. -/
def Is_Selected (selected_countries : List String) (r : Record) : Bool :=
  selected_countries.contains r.Country

/-- The year subset with the per-row highlight flag of line 108
attached. -/
def annotateSelected (rows : List Record) (selected_countries : List String) :
    List (Record × Bool) :=
  rows.map (fun r => (r, Is_Selected selected_countries r))

/-- app.py line 186: the fixed column list of the correlation heat map;
it does not depend on any caller selection. -/
def corr_cols : List String :=
  ["Score", "GDP_per_Capita", "Social_Support", "Life_Expectancy",
   "Freedom", "Generosity"]

/-- Sum of squared deviations from the mean of a list of rationals: the
(unnormalized) variance numerator pandas computes inside `corr`. -/
def sqDev (xs : List ℚ) : ℚ :=
  (xs.map (fun x => (x - xs.sum / (xs.length : ℚ)) ^ 2)).sum

/-- Covariance numerator: sum of products of deviations of the two
columns from their means. -/
def covDev (xs ys : List ℚ) : ℚ :=
  ((xs.zip ys).map (fun p =>
    (p.1 - xs.sum / (xs.length : ℚ)) * (p.2 - ys.sum / (ys.length : ℚ)))).sum

/-- One cell of pandas `DataFrame.corr()` (Pearson): NaN when the
subset has fewer than 2 rows or either column has zero variance —
pandas divides by a zero or undefined standard deviation and never
raises. A defined cell is recorded as the signed square
`cov * |cov| / (varx * vary)`, which determines and is determined by
the Pearson coefficient `r = cov / (sqrt varx * sqrt vary)` via
`r * |r|`, keeping the value rational and computable. -/
def pearsonCell (xs ys : List ℚ) : PFloat :=
  if xs.length < 2 then PFloat.nan
  else if sqDev xs = 0 ∨ sqDev ys = 0 then PFloat.nan
  else PFloat.num (covDev xs ys * |covDev xs ys| / (sqDev xs * sqDev ys))

/-- app.py lines 186-187: `corr = df_year[corr_cols].corr()` — the
pairwise Pearson matrix over the fixed `corr_cols`, restricted to the
rows it is given (the year subset). Total: degenerate subsets give NaN
cells, never an exception. -/
def corrMatrix (rows : List Record) : List (List PFloat) :=
  corr_cols.map (fun c1 =>
    corr_cols.map (fun c2 =>
      match getColFn c1, getColFn c2 with
      | some f, some g => pearsonCell (rows.map f) (rows.map g)
      | _, _ => PFloat.nan))

/-- One observable piece of the derived view, in the order the script
emits them: a summary metric (mean and optional delta of a column), the
argmax country, the annotated year subset fed to the charts, and the
correlation heat map. -/
inductive Output where
  | metric : String → PFloat → Option PFloat → Output
  | argmax : String → Output
  | table : List (Record × Bool) → Output
  | heatmap : List (List PFloat) → Output
deriving Repr, DecidableEq

/-- The per-metric-column part of the script (app.py lines 91-94 for
the x-axis column, and likewise for each further selected metric):
`get_delta(col)` then `df_year[col].mean()`. A column outside the frame
raises `KeyError` — at line 76 if the previous-year subset is non-empty,
else at line 93 — so either way the emitted outputs stop there. -/
def runMetrics (dy dp : List Record) :
    List String → List Output × Option String
  | [] => ([], none)
  | c :: rest =>
      match getColFn c with
      | none => ([], some "KeyError")
      | some f =>
          let d : Option PFloat :=
            if dp = [] then none
            else some (PFloat.sub (seriesMean (dy.map f)) (seriesMean (dp.map f)))
          let r := runMetrics dy dp rest
          (Output.metric c (seriesMean (dy.map f)) d :: r.1, r.2)

/-- The View Reducer: app.py lines 69-189 replayed in statement order.
Returns the outputs emitted before any exception, and the exception if
one was raised. Order: year and previous-year subsets (69-70), Score
mean and delta (85-88), each selected metric column (91-94), the argmax
country (97-98), the highlight-annotated subset feeding the charts
(108-170), and the correlation heat map (185-189). -/
def runScript (ds : List Record) (y : Int) (metrics : List String)
    (selected_countries : List String) : List Output × Option String :=
  let dy := yearSubset ds y
  let dp := prevSubset ds y
  let scoreOut := Output.metric "Score" (seriesMean (dy.map (fun r => r.Score)))
    (if dp = [] then none
     else some (PFloat.sub (seriesMean (dy.map (fun r => r.Score)))
                           (seriesMean (dp.map (fun r => r.Score)))))
  let m := runMetrics dy dp metrics
  match m.2 with
  | some e => (scoreOut :: m.1, some e)
  | none =>
      match firstArgmax dy with
      | none => (scoreOut :: m.1, some "ValueError")
      | some r =>
          (scoreOut :: m.1 ++
            [Output.argmax r.Country,
             Output.table (annotateSelected dy selected_countries),
             Output.heatmap (corrMatrix dy)], none)

/-- A loaded record with the remaining numeric columns zero, for
concrete test datasets (mirrors the concrete scenario of the spec,
section 8 item 7). -/
def mkRec (c : String) (y : Int) (s g : ℚ) : Record :=
  { Country := c, Year := y, Score := s, GDP_per_Capita := g,
    Social_Support := 0, Life_Expectancy := 0, Freedom := 0,
    Generosity := 0, Corruption := 0, Region := "Other" }

/-- The concrete scenario dataset of the spec, section 8 item 7:
rows (A, 2015, Score 5, GDP 1), (B, 2015, Score 7, GDP 2),
(A, 2014, Score 4, GDP 1/2). -/
def exDs : List Record :=
  [mkRec "A" 2015 5 1, mkRec "B" 2015 7 2, mkRec "A" 2014 4 (1/2)]

example : get_delta exDs 2015 "Score" = Except.ok (some (PFloat.num 2)) := by
  simp [get_delta, getColFn, prevSubset, yearSubset, exDs, mkRec, seriesMean,
    PFloat.sub] <;> norm_num
example : get_delta exDs 2014 "Score" = Except.ok none := by
  simp [get_delta, prevSubset, yearSubset, exDs, mkRec]
example : happiest exDs 2015 = Except.ok "B" := by
  simp [happiest, firstArgmax, yearSubset, exDs, mkRec] <;> norm_num
example : happiest exDs 2017 = Except.error "ValueError" := by
  simp [happiest, firstArgmax, yearSubset, exDs, mkRec]
example : seriesMean ((yearSubset exDs 2015).map (fun r => r.Score)) = PFloat.num 6 := by
  simp [seriesMean, yearSubset, exDs, mkRec] <;> norm_num
example : pearsonCell [5, 7] [1, 2] = PFloat.num 1 := by
  simp [pearsonCell, sqDev, covDev, List.zip] <;> norm_num
example : pearsonCell [5, 7] [0, 0] = PFloat.nan := by
  simp [pearsonCell, sqDev, covDev] <;> norm_num
example : pearsonCell [5] [1] = PFloat.nan := by
  simp [pearsonCell]
example :
    runScript exDs 2017 [] [] =
      ([Output.metric "Score" PFloat.nan none], some "ValueError") := by
  simp [runScript, runMetrics, yearSubset, prevSubset, exDs, mkRec, seriesMean,
    firstArgmax]
example :
    runScript exDs 2015 ["NotAColumn"] [] =
      ([Output.metric "Score" (PFloat.num 6) (some (PFloat.num 2))],
       some "KeyError") := by
  simp [runScript, runMetrics, getColFn, yearSubset, prevSubset, exDs, mkRec,
    seriesMean, PFloat.sub] <;> norm_num

/-- A dataset with a Score tie inside one year, to exercise the argmax
tie-break. -/
def exTie : List Record :=
  [mkRec "A" 2015 7 1, mkRec "B" 2015 7 2, mkRec "C" 2015 3 1]

/-- A one-row primary source for the loader claims. -/
def exRawA : RawRecord :=
  { Country := "A", Year := 2015, Score := 5, GDP_per_Capita := 1,
    Social_Support := 0, Life_Expectancy := 0, Freedom := 0,
    Generosity := 0, Corruption := 0 }

/-- A secondary source that has a Region column but no entry for
country A. -/
def exSec : Secondary :=
  { hasRegion := true, rows := [("B", "Western Europe")] }

theorem firstArgmax_spec (l : List Record) (h : l ≠ []) :
    ∃ i, ∃ hi : i < l.length,
      firstArgmax l = some (l.get ⟨i, hi⟩) ∧
      (∀ j, ∀ hj : j < l.length, (l.get ⟨j, hj⟩).Score ≤ (l.get ⟨i, hi⟩).Score) ∧
      (∀ j, ∀ hj : j < i, (l.get ⟨j, hj.trans hi⟩).Score < (l.get ⟨i, hi⟩).Score) := by
  induction l with
  | nil => exact absurd rfl h
  | cons r rs ih =>
    by_cases hrs : rs = []
    · subst hrs
      refine ⟨0, by simp, by simp [firstArgmax], ?_, ?_⟩
      · intro j hj
        have hj0 : j = 0 := Nat.lt_one_iff.mp (by simpa using hj)
        subst hj0
        exact le_refl _
      · intro j hj
        exact absurd hj (Nat.not_lt_zero j)
    · obtain ⟨i, hi, heq, hmax, hstrict⟩ := ih hrs
      have hstep : firstArgmax (r :: rs) =
          if (rs.get ⟨i, hi⟩).Score > r.Score then some (rs.get ⟨i, hi⟩)
          else some r := by
        simp only [firstArgmax, heq]
      by_cases hgt : (rs.get ⟨i, hi⟩).Score > r.Score
      · refine ⟨i + 1, Nat.succ_lt_succ hi, ?_, ?_, ?_⟩
        · rw [hstep, if_pos hgt]
          rfl
        · intro j hj
          cases j with
          | zero => exact le_of_lt hgt
          | succ k => exact hmax k (Nat.lt_of_succ_lt_succ hj)
        · intro j hj
          cases j with
          | zero => exact hgt
          | succ k => exact hstrict k (Nat.lt_of_succ_lt_succ hj)
      · refine ⟨0, Nat.succ_pos _, ?_, ?_, ?_⟩
        · rw [hstep, if_neg hgt]
          rfl
        · intro j hj
          cases j with
          | zero => exact le_refl _
          | succ k =>
            exact le_trans (hmax k (Nat.lt_of_succ_lt_succ hj)) (not_lt.mp hgt)
        · intro j hj
          exact absurd hj (Nat.not_lt_zero j)

theorem firstArgmax_isSome (l : List Record) (h : l ≠ []) :
    ∃ r, firstArgmax l = some r := by
  cases l with
  | nil => exact absurd rfl h
  | cons r rs =>
    cases hrs : firstArgmax rs with
    | none => exact ⟨r, by simp [firstArgmax, hrs]⟩
    | some b =>
      by_cases hgt : b.Score > r.Score
      · exact ⟨b, by simp [firstArgmax, hrs, hgt]⟩
      · exact ⟨r, by simp [firstArgmax, hrs, hgt]⟩

theorem runMetrics_invalid (dy dp : List Record) (ms : List String)
    (h : ∃ c ∈ ms, getColFn c = none) :
    (runMetrics dy dp ms).2 = some "KeyError" := by
  induction ms with
  | nil => simp at h
  | cons c rest ih =>
    obtain ⟨c0, hc0, hnone⟩ := h
    cases hg : getColFn c with
    | none => simp [runMetrics, hg]
    | some f =>
      rcases List.mem_cons.mp hc0 with h0 | h0
      · rw [h0] at hnone
        rw [hnone] at hg
        exact absurd hg (by simp)
      · simpa [runMetrics, hg] using ih ⟨c0, h0, hnone⟩

theorem runMetrics_valid (dy dp : List Record) (ms : List String)
    (h : ∀ c ∈ ms, (getColFn c).isSome) :
    (runMetrics dy dp ms).2 = none := by
  induction ms with
  | nil => simp [runMetrics]
  | cons c rest ih =>
    cases hg : getColFn c with
    | none =>
      have := h c (by simp)
      rw [hg] at this
      simp at this
    | some f =>
      simpa [runMetrics, hg] using ih (fun c0 hc0 => h c0 (List.mem_cons_of_mem c hc0))

theorem runMetrics_outputs (dy dp : List Record) (ms : List String) :
    ∀ o ∈ (runMetrics dy dp ms).1, ∃ c v d, o = Output.metric c v d := by
  induction ms with
  | nil => simp [runMetrics]
  | cons c rest ih =>
    cases hg : getColFn c with
    | none => simp [runMetrics, hg]
    | some f =>
      intro o ho
      simp only [runMetrics, hg] at ho
      rcases List.mem_cons.mp ho with h0 | h0
      · exact ⟨c, _, _, h0⟩
      · exact ih o h0

theorem exists_list_min (l : List ℚ) (h : l ≠ []) :
    ∃ a ∈ l, ∀ x ∈ l, a ≤ x := by
  induction l with
  | nil => exact absurd rfl h
  | cons x t ih =>
    cases ht : t with
    | nil =>
      refine ⟨x, by simp, ?_⟩
      intro z hz
      rw [List.mem_singleton.mp hz]
    | cons y t2 =>
      obtain ⟨a, ha, hall⟩ := ih (by simp [ht])
      rw [← ht] at *
      by_cases hax : a ≤ x
      · refine ⟨a, List.mem_cons_of_mem x ha, ?_⟩
        intro z hz
        rcases List.mem_cons.mp hz with h0 | h0
        · rw [h0]; exact hax
        · exact hall z h0
      · refine ⟨x, List.mem_cons_self x t, ?_⟩
        intro z hz
        rcases List.mem_cons.mp hz with h0 | h0
        · rw [h0]
        · exact le_trans (le_of_not_le hax) (hall z h0)

theorem exists_list_max (l : List ℚ) (h : l ≠ []) :
    ∃ b ∈ l, ∀ x ∈ l, x ≤ b := by
  induction l with
  | nil => exact absurd rfl h
  | cons x t ih =>
    cases ht : t with
    | nil =>
      refine ⟨x, by simp, ?_⟩
      intro z hz
      rw [List.mem_singleton.mp hz]
    | cons y t2 =>
      obtain ⟨b, hb, hall⟩ := ih (by simp [ht])
      rw [← ht] at *
      by_cases hbx : x ≤ b
      · refine ⟨b, List.mem_cons_of_mem x hb, ?_⟩
        intro z hz
        rcases List.mem_cons.mp hz with h0 | h0
        · rw [h0]; exact hbx
        · exact hall z h0
      · refine ⟨x, List.mem_cons_self x t, ?_⟩
        intro z hz
        rcases List.mem_cons.mp hz with h0 | h0
        · rw [h0]
        · exact le_trans (hall z h0) (le_of_not_le hbx)

theorem list_sum_le_length_mul (l : List ℚ) (b : ℚ) (h : ∀ x ∈ l, x ≤ b) :
    l.sum ≤ (l.length : ℚ) * b := by
  induction l with
  | nil => simp
  | cons x t ih =>
    have hx : x ≤ b := h x (List.mem_cons_self x t)
    have ht : t.sum ≤ (t.length : ℚ) * b :=
      ih (fun z hz => h z (List.mem_cons_of_mem x hz))
    simp only [List.sum_cons, List.length_cons]
    push_cast
    nlinarith

theorem length_mul_le_list_sum (l : List ℚ) (a : ℚ) (h : ∀ x ∈ l, a ≤ x) :
    (l.length : ℚ) * a ≤ l.sum := by
  induction l with
  | nil => simp
  | cons x t ih =>
    have hx : a ≤ x := h x (List.mem_cons_self x t)
    have ht : (t.length : ℚ) * a ≤ t.sum :=
      ih (fun z hz => h z (List.mem_cons_of_mem x hz))
    simp only [List.sum_cons, List.length_cons]
    push_cast
    nlinarith

/-- C1 (counterexample): the claim says the Reducer never raises for an
empty year subset and that the argmax is a distinguished no-data value
there; but on the concrete dataset `exDs` with year 2017 (empty year
subset) the argmax of app.py line 97 raises the pandas `ValueError` of
`idxmax` on an empty series instead of yielding a no-data value. -/
theorem C1_counterexample :
    happiest exDs 2017 = Except.error "ValueError" ∧
    (¬ ∃ c, happiest exDs 2017 = Except.ok c) := by
  constructor
  · simp [happiest, firstArgmax, yearSubset, exDs, mkRec]
  · intro hcon
    obtain ⟨c, hc⟩ := hcon
    simp [happiest, firstArgmax, yearSubset, exDs, mkRec] at hc

/-- C1 (amended): for an empty year subset the per-column mean is the
distinguished NaN no-data value and does not raise, and the correlation
cells on a subset with fewer than 2 rows or a zero-variance column are
the distinguished NaN undefined value and do not raise; but the
argmax-by-Score raises (the `ValueError` of `idxmax`, app.py line 97)
on an empty year subset rather than yielding a no-data value. -/
theorem C1_amended (ds : List Record) (y : Int) :
    (yearSubset ds y = [] →
      (∀ f : Record → ℚ, seriesMean ((yearSubset ds y).map f) = PFloat.nan) ∧
      happiest ds y = Except.error "ValueError") ∧
    (∀ xs ys : List ℚ, xs.length < 2 → pearsonCell xs ys = PFloat.nan) ∧
    (∀ xs ys : List ℚ, sqDev xs = 0 ∨ sqDev ys = 0 →
      pearsonCell xs ys = PFloat.nan) := by
  refine ⟨?_, ?_, ?_⟩
  · intro h
    constructor
    · intro f
      rw [h]
      simp [seriesMean]
    · rw [happiest, h]
      simp [firstArgmax]
  · intro xs ys hlen
    simp [pearsonCell, hlen]
  · intro xs ys hvar
    by_cases hlen : xs.length < 2
    · simp [pearsonCell, hlen]
    · simp [pearsonCell, hlen, hvar]

/-- C1 (witness): the amended statement evaluated on the concrete
dataset `exDs` at year 2017 (empty year subset) and on concrete
degenerate correlation inputs. -/
theorem C1_amended_witness :
    seriesMean ((yearSubset exDs 2017).map (fun r => r.Score)) = PFloat.nan ∧
    happiest exDs 2017 = Except.error "ValueError" ∧
    pearsonCell [5] [1] = PFloat.nan ∧
    pearsonCell [5, 7] [0, 0] = PFloat.nan := by
  have hempty : yearSubset exDs 2017 = [] := by
    simp [yearSubset, exDs, mkRec]
  have h := C1_amended exDs 2017
  refine ⟨(h.1 hempty).1 _, (h.1 hempty).2, h.2.1 [5] [1] (by norm_num), ?_⟩
  refine h.2.2 [5, 7] [0, 0] (Or.inr ?_)
  norm_num [sqDev]

/-- C2: the year-over-year delta of `get_delta` (app.py lines 73-76)
equals mean(year subset, col) minus mean(previous-year subset, col)
when the previous-year subset is non-empty, and is the distinguished
unavailable value `none` (Python `None`) — not a computed zero and not
an exception — whenever the previous-year subset is empty, for every
metric column of the frame. -/
theorem C2_delta (ds : List Record) (y : Int) (c : String) (f : Record → ℚ)
    (hf : getColFn c = some f) :
    (prevSubset ds y ≠ [] →
      get_delta ds y c = Except.ok (some (PFloat.sub
        (seriesMean ((yearSubset ds y).map f))
        (seriesMean ((prevSubset ds y).map f))))) ∧
    (prevSubset ds y = [] → get_delta ds y c = Except.ok none) ∧
    (prevSubset ds y = [] →
      get_delta ds y c ≠ Except.ok (some (PFloat.num 0))) := by
  refine ⟨?_, ?_, ?_⟩
  · intro h
    simp [get_delta, h, hf]
  · intro h
    simp [get_delta, h]
  · intro h
    simp [get_delta, h]

/-- C2 (witness): on the spec scenario dataset, the Score delta at 2015
is mean(2015) - mean(2014) = 6 - 4 = 2, and at the earliest year 2014
the delta is the unavailable value. -/
theorem C2_delta_witness :
    get_delta exDs 2015 "Score" = Except.ok (some (PFloat.sub
      (seriesMean ((yearSubset exDs 2015).map (fun r => r.Score)))
      (seriesMean ((prevSubset exDs 2015).map (fun r => r.Score))))) ∧
    get_delta exDs 2014 "Score" = Except.ok none := by
  constructor
  · exact (C2_delta exDs 2015 "Score" (fun r => r.Score) rfl).1
      (by simp [prevSubset, yearSubset, exDs, mkRec])
  · exact (C2_delta exDs 2014 "Score" (fun r => r.Score) rfl).2.1
      (by simp [prevSubset, yearSubset, exDs, mkRec])

/-- C3: after `load_data` (app.py lines 11-24) every Record's Region is
a non-null string; when the secondary source is missing every Region is
the sentinel "Unknown"; when the secondary source is present — even
with no Region column, which yields the empty mapping — a Country
absent from the mapping gets the sentinel "Other". -/
theorem C3_region_sentinels (p : List RawRecord) (s : Secondary) :
    (∀ ds, load_data p FileRead.missing = Except.ok ds →
      ∀ r ∈ ds, r.Region = "Unknown") ∧
    (∀ ds, load_data p (FileRead.ok s) = Except.ok ds →
      ∀ r ∈ ds, dictLookup (regionMap s) r.Country = none → r.Region = "Other") ∧
    (s.hasRegion = false →
      ∀ ds, load_data p (FileRead.ok s) = Except.ok ds →
        ∀ r ∈ ds, r.Region = "Other") := by
  refine ⟨?_, ?_, ?_⟩
  · intro ds hds r hr
    simp only [load_data, Except.ok.injEq] at hds
    subst hds
    obtain ⟨a, _, rfl⟩ := List.mem_map.mp hr
    rfl
  · intro ds hds r hr hlook
    simp only [load_data, Except.ok.injEq] at hds
    subst hds
    obtain ⟨a, _, rfl⟩ := List.mem_map.mp hr
    simp only at hlook ⊢
    rw [hlook]
    rfl
  · intro hnoreg ds hds r hr
    simp only [load_data, Except.ok.injEq] at hds
    subst hds
    obtain ⟨a, _, rfl⟩ := List.mem_map.mp hr
    simp [regionMap, hnoreg, dictLookup]

/-- C3 (witness): on a one-row primary source, the missing-secondary
load gives Region "Unknown", and the present-but-unmatched load (the
mapping of `exSec` has no entry for country A) gives Region "Other". -/
theorem C3_region_sentinels_witness :
    (∀ r ∈ [({ toRawRecord := exRawA, Region := "Unknown" } : Record)],
      r.Region = "Unknown") ∧
    (({ toRawRecord := exRawA, Region := "Other" } : Record)).Region = "Other" := by
  constructor
  · exact (C3_region_sentinels [exRawA] exSec).1
      [{ toRawRecord := exRawA, Region := "Unknown" }] (by rfl)
  · exact (C3_region_sentinels [exRawA] exSec).2.1
      [{ toRawRecord := exRawA, Region := "Other" }] (by rfl)
      { toRawRecord := exRawA, Region := "Other" } (by simp) (by rfl)

/-- C4: on a non-empty year subset, `happiest` (app.py lines 97-98)
returns the Country of a row of the year subset whose Score is maximal,
and on a tie it is the row appearing first in dataset order: every
strictly earlier row of the subset has strictly smaller Score. The
embedding is a pure function of its inputs, so repeated calls agree
definitionally. -/
theorem C4_argmax_first (ds : List Record) (y : Int)
    (h : yearSubset ds y ≠ []) :
    ∃ i, ∃ hi : i < (yearSubset ds y).length,
      happiest ds y =
        Except.ok (((yearSubset ds y).get ⟨i, hi⟩).Country) ∧
      (∀ j, ∀ hj : j < (yearSubset ds y).length,
        ((yearSubset ds y).get ⟨j, hj⟩).Score ≤
          ((yearSubset ds y).get ⟨i, hi⟩).Score) ∧
      (∀ j, ∀ hj : j < i,
        ((yearSubset ds y).get ⟨j, hj.trans hi⟩).Score <
          ((yearSubset ds y).get ⟨i, hi⟩).Score) := by
  obtain ⟨i, hi, heq, hmax, hstrict⟩ := firstArgmax_spec (yearSubset ds y) h
  exact ⟨i, hi, by rw [happiest, heq], hmax, hstrict⟩

/-- C4 (witness): on the tie dataset `exTie` (rows A and B both have
the maximal Score 7 in 2015) the argmax characterization holds; in
particular the returned country is A, the first in dataset order. -/
theorem C4_argmax_first_witness :
    (∃ i, ∃ hi : i < (yearSubset exTie 2015).length,
      happiest exTie 2015 =
        Except.ok (((yearSubset exTie 2015).get ⟨i, hi⟩).Country) ∧
      (∀ j, ∀ hj : j < (yearSubset exTie 2015).length,
        ((yearSubset exTie 2015).get ⟨j, hj⟩).Score ≤
          ((yearSubset exTie 2015).get ⟨i, hi⟩).Score) ∧
      (∀ j, ∀ hj : j < i,
        ((yearSubset exTie 2015).get ⟨j, hj.trans hi⟩).Score <
          ((yearSubset exTie 2015).get ⟨i, hi⟩).Score)) ∧
    happiest exTie 2015 = Except.ok "A" := by
  constructor
  · exact C4_argmax_first exTie 2015 (by simp [yearSubset, exTie, mkRec])
  · simp [happiest, firstArgmax, yearSubset, exTie, mkRec]
    norm_num

/-- C5 (counterexample): the claim says a metric name outside the fixed
set raises InvalidColumn with no partial computation; on the concrete
dataset `exDs` at year 2015 with metric "NotAColumn", the script does
raise the `KeyError` but only after computing the year subsets and
computing and emitting the Score aggregate metric (mean 6, delta 2) —
part of the DerivedView is produced before the failure. -/
theorem C5_counterexample :
    (runScript exDs 2015 ["NotAColumn"] []).2 = some "KeyError" ∧
    (runScript exDs 2015 ["NotAColumn"] []).1 =
      [Output.metric "Score" (PFloat.num 6) (some (PFloat.num 2))] := by
  constructor
  · simp [runScript, runMetrics, getColFn, yearSubset, prevSubset, exDs, mkRec]
  · simp [runScript, runMetrics, getColFn, yearSubset, prevSubset, exDs, mkRec,
      seriesMean, PFloat.sub]
    norm_num

/-- C5 (amended): a metric name outside the numeric columns of the
frame makes the script raise `KeyError` (the InvalidColumn error), and
the argmax, highlight annotation and correlation matrix are not
produced; but the failure is not before all computation: the year
subsets are formed and the Score aggregate metric is computed and
emitted first. -/
theorem C5_amended (ds : List Record) (y : Int) (ms sel : List String)
    (h : ∃ c ∈ ms, getColFn c = none) :
    (runScript ds y ms sel).2 = some "KeyError" ∧
    (∃ v d, (runScript ds y ms sel).1.head? = some (Output.metric "Score" v d)) ∧
    (∀ o ∈ (runScript ds y ms sel).1, ∃ c v d, o = Output.metric c v d) := by
  have hm := runMetrics_invalid (yearSubset ds y) (prevSubset ds y) ms h
  refine ⟨?_, ?_, ?_⟩
  · simp only [runScript, hm]
  · refine ⟨seriesMean ((yearSubset ds y).map (fun r => r.Score)),
      (if prevSubset ds y = [] then none
       else some (PFloat.sub (seriesMean ((yearSubset ds y).map (fun r => r.Score)))
         (seriesMean ((prevSubset ds y).map (fun r => r.Score))))), ?_⟩
    simp only [runScript, hm, List.head?_cons]
  · intro o ho
    simp only [runScript, hm, List.mem_cons] at ho
    rcases ho with h0 | h0
    · exact ⟨_, _, _, h0⟩
    · exact runMetrics_outputs (yearSubset ds y) (prevSubset ds y) ms o h0

/-- C5 (witness): the amended statement evaluated on the concrete
dataset `exDs` at year 2015 with the invalid metric "NotAColumn". -/
theorem C5_amended_witness :
    (runScript exDs 2015 ["NotAColumn"] []).2 = some "KeyError" ∧
    (∃ v d, (runScript exDs 2015 ["NotAColumn"] []).1.head? =
      some (Output.metric "Score" v d)) ∧
    (∀ o ∈ (runScript exDs 2015 ["NotAColumn"] []).1,
      ∃ c v d, o = Output.metric c v d) :=
  C5_amended exDs 2015 ["NotAColumn"] [] ⟨"NotAColumn", by simp, rfl⟩

/-- C6: every row of the year subset carries the highlight flag of
app.py line 108, equal to membership of its Country in the highlighted
set; the annotation never fails and never drops or adds rows, whatever
names — present in the dataset or not — the highlighted set contains. -/
theorem C6_highlight (ds : List Record) (y : Int) (sel : List String) :
    ((annotateSelected (yearSubset ds y) sel).map Prod.fst = yearSubset ds y) ∧
    (∀ p ∈ annotateSelected (yearSubset ds y) sel,
      p.2 = sel.contains p.1.Country) := by
  constructor
  · simp only [annotateSelected, List.map_map]
    exact List.map_id _
  · intro p hp
    obtain ⟨r, _, rfl⟩ := List.mem_map.mp hp
    rfl

/-- C6 (witness): on `exDs` at 2015 with highlighted set
containing B and a name absent from the dataset, the rows are unchanged
and row B carries flag true. -/
theorem C6_highlight_witness :
    ((annotateSelected (yearSubset exDs 2015) ["B", "Nowhere"]).map Prod.fst =
      yearSubset exDs 2015) ∧
    (mkRec "B" 2015 7 2, true).2 =
      (["B", "Nowhere"].contains (mkRec "B" 2015 7 2, true).1.Country) := by
  constructor
  · exact (C6_highlight exDs 2015 ["B", "Nowhere"]).1
  · refine (C6_highlight exDs 2015 ["B", "Nowhere"]).2 (mkRec "B" 2015 7 2, true) ?_
    simp [annotateSelected, yearSubset, exDs, mkRec, Is_Selected]

/-- C7 (counterexample): the claim says reduce with no metrics and no
highlights still returns a valid year subset and the correlation
matrix for every dataset and year; but on the concrete dataset `exDs`
at year 2017 the year subset is empty, the script raises `ValueError`
at the argmax (app.py line 97) before reaching the heat map, and no
correlation matrix is produced. -/
theorem C7_counterexample :
    (runScript exDs 2017 [] []).2 = some "ValueError" ∧
    Output.heatmap (corrMatrix (yearSubset exDs 2017)) ∉
      (runScript exDs 2017 [] []).1 := by
  constructor
  · simp [runScript, runMetrics, yearSubset, prevSubset, exDs, mkRec, firstArgmax]
  · simp [runScript, runMetrics, yearSubset, prevSubset, exDs, mkRec, firstArgmax]

/-- C7 (amended): the correlation matrix the script emits is
`corrMatrix` of the year subset — pairwise Pearson over the fixed
column list `corr_cols`, independent of the metric selections and of
the highlighted set — and a call with an empty metric list and any
highlighted set emits the annotated year subset and this matrix,
provided the year subset is non-empty (on an empty year subset the
script raises at the argmax before the matrix is produced). -/
theorem C7_amended (ds : List Record) (y : Int) (sel : List String)
    (h : yearSubset ds y ≠ []) :
    ((runScript ds y [] sel).2 = none) ∧
    (Output.table (annotateSelected (yearSubset ds y) sel) ∈
      (runScript ds y [] sel).1) ∧
    (Output.heatmap (corrMatrix (yearSubset ds y)) ∈ (runScript ds y [] sel).1) ∧
    ((corrMatrix (yearSubset ds y)).length = corr_cols.length) ∧
    (∀ ms, (∀ c ∈ ms, (getColFn c).isSome) →
      Output.heatmap (corrMatrix (yearSubset ds y)) ∈ (runScript ds y ms sel).1) := by
  obtain ⟨r, hr⟩ := firstArgmax_isSome (yearSubset ds y) h
  have hnil : (runMetrics (yearSubset ds y) (prevSubset ds y) []).2 = none := by
    simp [runMetrics]
  refine ⟨?_, ?_, ?_, ?_, ?_⟩
  · simp only [runScript, hnil, hr]
  · simp only [runScript, hnil, hr]
    simp [runMetrics]
  · simp only [runScript, hnil, hr]
    simp [runMetrics]
  · simp [corrMatrix]
  · intro ms hms
    have hv := runMetrics_valid (yearSubset ds y) (prevSubset ds y) ms hms
    simp only [runScript, hv, hr]
    simp

/-- C7 (witness): the amended statement evaluated on `exDs` at 2015
(non-empty year subset) with highlighted set ["B"]. -/
theorem C7_amended_witness :
    ((runScript exDs 2015 [] ["B"]).2 = none) ∧
    (Output.table (annotateSelected (yearSubset exDs 2015) ["B"]) ∈
      (runScript exDs 2015 [] ["B"]).1) ∧
    (Output.heatmap (corrMatrix (yearSubset exDs 2015)) ∈
      (runScript exDs 2015 [] ["B"]).1) ∧
    ((corrMatrix (yearSubset exDs 2015)).length = corr_cols.length) ∧
    (∀ ms, (∀ c ∈ ms, (getColFn c).isSome) →
      Output.heatmap (corrMatrix (yearSubset exDs 2015)) ∈
        (runScript exDs 2015 ms ["B"]).1) :=
  C7_amended exDs 2015 ["B"] (by simp [yearSubset, exDs, mkRec])

/-- C8: loading is idempotent and cached. The memoization contract of
the third-party `@st.cache_data` decorator (app.py line 11) is modelled
from the spec by `load_cached`: whenever the first call succeeds, the
second call returns a structurally identical Dataset and performs zero
backing-source reads. -/
theorem C8_load_cached (p : FileRead (List RawRecord)) (s : FileRead Secondary)
    (ds : List Record) (h : (load_cached p s none).1 = Except.ok ds) :
    ((load_cached p s none).2.1 = some ds) ∧
    ((load_cached p s ((load_cached p s none).2.1)).1 = Except.ok ds) ∧
    ((load_cached p s ((load_cached p s none).2.1)).2.2 = 0) := by
  have hc : (load_cached p s none).2.1 = some ds := by
    cases p with
    | ok rows =>
      cases hld : load_data rows s with
      | ok ds2 =>
        simp only [load_cached, hld] at h ⊢
        exact congrArg some (Except.ok.inj h)
      | error e =>
        simp only [load_cached, hld] at h
        exact absurd h (by simp)
    | missing => simp [load_cached] at h
    | unparseable => simp [load_cached] at h
  refine ⟨hc, ?_, ?_⟩
  · rw [hc]
    rfl
  · rw [hc]
    rfl

/-- C8 (witness): a concrete one-row source with a missing secondary:
the first call caches the loaded table and the second call returns it
with zero reads. -/
theorem C8_load_cached_witness :
    ((load_cached (FileRead.ok [exRawA]) FileRead.missing none).2.1 =
      some [{ toRawRecord := exRawA, Region := "Unknown" }]) ∧
    ((load_cached (FileRead.ok [exRawA]) FileRead.missing
        ((load_cached (FileRead.ok [exRawA]) FileRead.missing none).2.1)).1 =
      Except.ok [{ toRawRecord := exRawA, Region := "Unknown" }]) ∧
    ((load_cached (FileRead.ok [exRawA]) FileRead.missing
        ((load_cached (FileRead.ok [exRawA]) FileRead.missing none).2.1)).2.2 = 0) :=
  C8_load_cached (FileRead.ok [exRawA]) FileRead.missing
    [{ toRawRecord := exRawA, Region := "Unknown" }] (by rfl)

/-- C9: on a non-empty year subset the arithmetic mean of Score (the
metric of app.py line 87) is a number (not NaN) lying between the
minimum and the maximum Score of the subset. -/
theorem C9_mean_bounds (ds : List Record) (y : Int)
    (h : yearSubset ds y ≠ []) :
    ∃ m a b,
      seriesMean ((yearSubset ds y).map (fun r => r.Score)) = PFloat.num m ∧
      a ∈ (yearSubset ds y).map (fun r => r.Score) ∧
      b ∈ (yearSubset ds y).map (fun r => r.Score) ∧
      (∀ x ∈ (yearSubset ds y).map (fun r => r.Score), a ≤ x ∧ x ≤ b) ∧
      a ≤ m ∧ m ≤ b := by
  set scores := (yearSubset ds y).map (fun r => r.Score) with hscores
  have hne : scores ≠ [] := by
    simp only [hscores, ne_eq, List.map_eq_nil_iff]
    exact h
  have hlen : (0 : ℚ) < (scores.length : ℚ) := by
    have := List.length_pos.mpr hne
    exact_mod_cast this
  obtain ⟨a, ha, hamin⟩ := exists_list_min scores hne
  obtain ⟨b, hb, hbmax⟩ := exists_list_max scores hne
  refine ⟨scores.sum / (scores.length : ℚ), a, b, ?_, ha, hb,
    fun x hx => ⟨hamin x hx, hbmax x hx⟩, ?_, ?_⟩
  · rw [seriesMean, if_neg hne]
  · rw [le_div_iff hlen]
    have := length_mul_le_list_sum scores a hamin
    linarith
  · rw [div_le_iff hlen]
    have := list_sum_le_length_mul scores b hbmax
    linarith

/-- C9 (witness): on `exDs` at 2015 the mean Score is 6 and lies
between the subset minimum 5 and maximum 7. -/
theorem C9_mean_bounds_witness :
    ∃ m a b,
      seriesMean ((yearSubset exDs 2015).map (fun r => r.Score)) = PFloat.num m ∧
      a ∈ (yearSubset exDs 2015).map (fun r => r.Score) ∧
      b ∈ (yearSubset exDs 2015).map (fun r => r.Score) ∧
      (∀ x ∈ (yearSubset exDs 2015).map (fun r => r.Score), a ≤ x ∧ x ≤ b) ∧
      a ≤ m ∧ m ≤ b :=
  C9_mean_bounds exDs 2015 (by simp [yearSubset, exDs, mkRec])

/-- C10: an existing but unparseable secondary source is not caught by
the `except FileNotFoundError` of app.py line 22: no Region sentinel is
assigned, the exception escapes `load_data`, and the application-level
bare `except` (lines 26-30) halts the dashboard; only the missing-file
case produces the "Unknown" fallback. -/
theorem C10_unparseable_secondary (p : List RawRecord) :
    (load_data p FileRead.unparseable = Except.error "ParserError") ∧
    (¬ ∃ ds, load_data p FileRead.unparseable = Except.ok ds) ∧
    (loadApp (FileRead.ok p) FileRead.unparseable = AppResult.fatalStop) ∧
    (∃ ds, load_data p FileRead.missing = Except.ok ds ∧
      ∀ r ∈ ds, r.Region = "Unknown") := by
  refine ⟨rfl, ?_, rfl, ?_⟩
  · intro hcon
    obtain ⟨ds, hds⟩ := hcon
    simp [load_data] at hds
  · refine ⟨p.map (fun r => { toRawRecord := r, Region := "Unknown" }), rfl, ?_⟩
    intro r hr
    obtain ⟨a, _, rfl⟩ := List.mem_map.mp hr
    rfl

end Happiness
